import Mathlib

/-!
# Verification of the attendance reconciliation service (`src/app.py`)

Shallow embedding of the QR-attendance Flask service. The program keeps a
per-day partition (Google-Sheets worksheet) of attendance rows with columns
`Kode`, `Nama`, `Waktu`; the core routine `process_qrcode` parses a scanned
payload, performs a lookup-or-insert against the partition table and returns
a JSON result together with the ten most recent entries.

Modelling conventions:
* Python strings are Lean `String`s (a structure holding a `List Char`);
  Python's lexicographic string comparison coincides with Lean's `≤` on
  `String` (code-point lexicographic).
* The pandas DataFrame holding the partition is a `List Row`.
* The remote spreadsheet store (the external gspread library) is an explicit
  environment value describing what the remote calls would do; exceptions are
  values of `GExc`.  Per the gspread library, `client.open` raises
  `SpreadsheetNotFound` when the spreadsheet is absent, and
  `Spreadsheet.worksheet` raises `WorksheetNotFound` when the worksheet is
  absent; the two are sibling classes, neither catches the other.
* `pandas.sort_values(ascending=False)` sorts descending by the given key;
  its order on ties is unspecified (quicksort), so the model fixes one valid
  descending order (`List.insertionSort`).
-/

/-- The four statuses `process_qrcode` can put in the `"status"` field. -/
inductive Status
  | SUCCESS
  | REGISTERED
  | INVALID_FORMAT
  | CONNECTION_ERROR
deriving DecidableEq

/-- One attendance row of the partition table (columns of `src/app.py` line 57). -/
structure Row where
  Kode : String
  Nama : String
  Waktu : String
deriving DecidableEq

/-- The in-memory partition table (the pandas DataFrame `df_absensi`). -/
abbrev Table := List Row

/-- The second component returned by `get_attendance_dataframe`: either an
error-marker string (lines 60 and 66) or the opaque spreadsheet handle `sh`. -/
inductive ShRef
  | err (msg : String)
  | sheet
deriving DecidableEq

/-- `isinstance(sh, str)` of line 110. -/
def ShRef.isErr : ShRef → Bool
  | .err _ => true
  | .sheet => false

/-- Exceptions of the gspread library that the remote store can raise. -/
inductive GExc
  | spreadsheetNotFound
  | worksheetNotFound
  | apiError (msg : String)
deriving DecidableEq

/-- The JSON dictionary `result` returned by `process_qrcode`.  `kode` and
`recent` are `Option`s because the corresponding keys are absent from the
dictionaries built at lines 111-115 and 127-131. -/
structure ScanResult where
  nama : String
  kode : Option String
  status : Status
  waktu : String
  recent : Option (List (String × String))
deriving DecidableEq

/-- Python `str.upper()` (character-wise uppercasing). -/
def upperString (s : String) : String := ⟨s.data.map Char.toUpper⟩

/-- Python `str.replace('-', ' ')`: every dash becomes a space (single-character
pattern, so character-wise). -/
def replaceDashSpace (s : String) : String :=
  ⟨s.data.map fun c => if c = '-' then ' ' else c⟩

/-- `s.split(sep, 1)` for a string known to contain `sep`: the part strictly
before the first occurrence of `sep` and everything after it. `none` when
`sep` does not occur. -/
def splitFirst (sep : Char) : List Char → Option (List Char × List Char)
  | [] => none
  | c :: cs =>
    if c = sep then some ([], cs)
    else
      match splitFirst sep cs with
      | none => none
      | some (l, r) => some (c :: l, r)

/-- The parsing step of `process_qrcode` (lines 117-131): if `'_'` does not
occur the branch raises `ValueError` (modelled as `none`); otherwise
`kode, nama_raw = qr_data.split('_', 1)`,
`nama_lengkap = nama_raw.replace('-', ' ').upper()`, `kode_upper = kode.upper()`. -/
def parse_qr (qr : String) : Option (String × String) :=
  match splitFirst '_' qr.data with
  | none => none
  | some (kode, nama_raw) =>
      some (upperString ⟨kode⟩, upperString (replaceDashSpace ⟨nama_raw⟩))

/-- Descending order on rows by the `Waktu` column (the key of
`sort_values(by='Waktu', ascending=False)` at line 157). -/
def waktuGe (a b : Row) : Prop := b.Waktu ≤ a.Waktu

instance : DecidableRel waktuGe := fun a b => String.decidableLE b.Waktu a.Waktu

instance : IsTotal Row waktuGe := ⟨fun a b => (le_total a.Waktu b.Waktu).symm⟩

instance : IsTrans Row waktuGe := ⟨fun _ _ _ hab hbc => le_trans hbc hab⟩

/-- Line 157: `df.sort_values(by='Waktu', ascending=False).head(10)[['Nama','Waktu']]
.to_dict('records')` — sort descending by `Waktu`, keep the first ten rows,
project each to its `(Nama, Waktu)` pair. -/
def recentOf (t : Table) : List (String × String) :=
  ((List.insertionSort waktuGe t).take 10).map fun r => (r.Nama, r.Waktu)

/-- What `save_attendance_dataframe` did to the durable store. -/
inductive WriteOutcome
  | wrote (t : Table)
  | failedLogged (e : GExc)
deriving DecidableEq

/-- `save_attendance_dataframe` (lines 91-101): the whole write path sits in a
`try`/`except Exception` that only prints, so the function returns normally
whether or not the remote write raised.  `wenv = some e` means the write path
(worksheet lookup or `set_with_dataframe`) raises `e`; `none` means it
succeeds.  The returned value records what happened to the durable store. -/
def save_attendance_dataframe (df : Table) (wenv : Option GExc) : WriteOutcome :=
  match wenv with
  | some e => .failedLogged e
  | none => .wrote df

/-- The body of `process_qrcode` after the partition load (lines 108-160),
as a function of the loaded table `df`, the second load component `sh`, the
current time string `time_now` (line 108) and the write environment.  Returns
the `result` dictionary, the final in-memory table, and `some w` when
`save_attendance_dataframe` was invoked (with its outcome `w`). -/
def process_scan (qr : String) (df : Table) (sh : ShRef) (time_now : String)
    (wenv : Option GExc) : ScanResult × Table × Option WriteOutcome :=
  if df.isEmpty && sh.isErr then
    ({ nama := "Gagal Koneksi GSheets", kode := none, status := .CONNECTION_ERROR,
       waktu := time_now, recent := none }, df, none)
  else
    match parse_qr qr with
    | none =>
        ({ nama := "Format QR Tidak Valid", kode := none, status := .INVALID_FORMAT,
           waktu := time_now, recent := none }, df, none)
    | some (kode_upper, nama_lengkap) =>
        match df.find? fun r => r.Kode == kode_upper with
        | some r0 =>
            ({ nama := nama_lengkap, kode := some kode_upper, status := .REGISTERED,
               waktu := r0.Waktu, recent := some (recentOf df) }, df, none)
        | none =>
            let df' := df ++ [{ Kode := kode_upper, Nama := nama_lengkap, Waktu := time_now }]
            ({ nama := nama_lengkap, kode := some kode_upper, status := .SUCCESS,
               waktu := time_now, recent := some (recentOf df') },
             df', some (save_attendance_dataframe df' wenv))

/-- What the remote store does when `get_attendance_dataframe` talks to it:
either `gc.open(SHEET_TITLE)` raises (gspread raises `SpreadsheetNotFound`
when the spreadsheet is absent), or it yields a spreadsheet whose
daily worksheet is missing (so `sh.worksheet` raises `WorksheetNotFound`
and a fresh one is created) or present with `get_all_values()` data. -/
inductive StoreEnv
  | openRaises (e : GExc)
  | wsMissing
  | wsValues (data : List (List String))

/-- Row built by `pd.DataFrame(data[1:], columns=data[0])` from one raw sheet
row, for the standard header `["Kode", "Nama", "Waktu"]` (the header every
worksheet of this system carries). -/
def rowOfCells (cells : List String) : Row :=
  { Kode := cells.getD 0 "", Nama := cells.getD 1 "", Waktu := cells.getD 2 "" }

/-- `get_attendance_dataframe` (lines 54-89).  `gc` is the gspread client
handle (`none` when `get_gspread_client` returned `None`).  The `try` at
lines 62-66 catches only `gspread.WorksheetNotFound`; any other exception
raised by `gc.open` propagates to the caller (`.error`).  Worksheet selection
by today's name is folded into `env`. -/
def get_attendance_dataframe (gc : Option Unit) (env : StoreEnv) :
    Except GExc (Table × ShRef) :=
  match gc with
  | none => .ok ([], .err "Gagal koneksi GSheets")
  | some _ =>
    match env with
    | .openRaises e =>
        if e = .worksheetNotFound then .ok ([], .err "Sheet Gagal")
        else .error e
    | .wsMissing => .ok ([], .sheet)
    | .wsValues data =>
        if data.length ≤ 1 then .ok ([], .sheet)
        else .ok ((data.drop 1).map rowOfCells, .sheet)

/-- `process_qrcode` (lines 106-160): load the partition, then run the scan
body.  An exception escaping `get_attendance_dataframe` is not caught here
(nor in the `/scan` Flask handler), so it propagates as `.error`. -/
def process_qrcode (qr : String) (gc : Option Unit) (env : StoreEnv)
    (wenv : Option GExc) (time_now : String) :
    Except GExc (ScanResult × Table × Option WriteOutcome) :=
  match get_attendance_dataframe gc env with
  | .error e => .error e
  | .ok (df, sh) => .ok (process_scan qr df sh time_now wenv)

/-! ## The partition namer (`get_weekly_worksheet_name`, lines 44-52) -/

/-- A calendar date as carried by `datetime.datetime.now()`. -/
structure Date where
  day : Nat
  month : Nat
  year : Nat
deriving DecidableEq

/-- The current instant: a calendar date plus a time of day (opaque here;
none of the strftime directives used by the program reads it). -/
structure Instant where
  date : Date
  secondsOfDay : Nat
deriving DecidableEq

/-- Day of week as a function of the calendar date (Monday-first), following
Zeller's congruence with the century terms rewritten additively to stay in
`Nat`.  The concrete value is irrelevant to every property proved below;
what matters is that it depends only on the date. -/
def weekdayIndex (d : Date) : Fin 7 :=
  let m := if d.month ≤ 2 then d.month + 12 else d.month
  let y := if d.month ≤ 2 then d.year - 1 else d.year
  ⟨(d.day + 13 * (m + 1) / 5 + y + y / 4 + 6 * (y / 100) + y / 400) % 7,
    Nat.mod_lt _ (by decide)⟩

/-- Full weekday names produced by strftime `%A` under the `id_ID` locale the
program configures at lines 14-21 (Monday-first).  The English fallback
names likewise contain neither `','` nor `'_'`, so the properties proved
below do not depend on which locale was installed. -/
def weekdayName : Fin 7 → List Char
  | 0 => ['S', 'e', 'n', 'i', 'n']
  | 1 => ['S', 'e', 'l', 'a', 's', 'a']
  | 2 => ['R', 'a', 'b', 'u']
  | 3 => ['K', 'a', 'm', 'i', 's']
  | 4 => ['J', 'u', 'm', 'a', 't']
  | 5 => ['S', 'a', 'b', 't', 'u']
  | 6 => ['M', 'i', 'n', 'g', 'g', 'u']

/-- The decimal digit characters. -/
def digitChar : Nat → Char
  | 0 => '0'
  | 1 => '1'
  | 2 => '2'
  | 3 => '3'
  | 4 => '4'
  | 5 => '5'
  | 6 => '6'
  | 7 => '7'
  | 8 => '8'
  | _ => '9'

/-- Numeric value of a decimal digit character. -/
def digitVal (c : Char) : Nat := c.toNat - 48

/-- strftime `%d` / `%m`: the number zero-padded to two digits (exact for the
day/month values `datetime` produces, which are below 100). -/
def pad2 (n : Nat) : List Char := [digitChar (n / 10 % 10), digitChar (n % 10)]

/-- strftime `%Y`: the year zero-padded to four digits (exact for `datetime`
years, which are below 10000). -/
def pad4 (n : Nat) : List Char :=
  [digitChar (n / 1000 % 10), digitChar (n / 100 % 10), digitChar (n / 10 % 10),
   digitChar (n % 10)]

/-- The `%d-%m-%Y` part of the format string at line 49. -/
def dateChars (d : Date) : List Char :=
  pad2 d.day ++ '-' :: pad2 d.month ++ '-' :: pad4 d.year

/-- `today.strftime("%A, %d-%m-%Y")` (line 49): full localized weekday name,
`", "`, zero-padded day-month-year.  A function of the calendar date alone. -/
def strftime_A_dmY (i : Instant) : List Char :=
  weekdayName (weekdayIndex i.date) ++ ',' :: ' ' :: dateChars i.date

/-- Python `str.replace(', ', '_')`: every (non-overlapping, left-to-right)
occurrence of the two-character pattern `", "` becomes `"_"`. -/
def replaceCommaSpace : List Char → List Char
  | [] => []
  | [c] => [c]
  | c1 :: c2 :: rest =>
      if c1 = ',' ∧ c2 = ' ' then '_' :: replaceCommaSpace rest
      else c1 :: replaceCommaSpace (c2 :: rest)

/-- `get_weekly_worksheet_name` (lines 44-52): format the current instant,
uppercase the whole string, replace `", "` with `"_"`. -/
def get_weekly_worksheet_name (i : Instant) : String :=
  ⟨replaceCommaSpace ((strftime_A_dmY i).map Char.toUpper)⟩

/-! ## Lemmas about the payload parser -/

theorem splitFirst_append (sep : Char) (l r : List Char) (hl : sep ∉ l) :
    splitFirst sep (l ++ sep :: r) = some (l, r) := by
  induction l with
  | nil => simp [splitFirst]
  | cons c cs ih =>
      have hc : c ≠ sep := fun h => hl (h ▸ List.mem_cons_self c cs)
      have hcs : sep ∉ cs := fun h => hl (List.mem_cons_of_mem c h)
      simp [splitFirst, hc, ih hcs]

theorem splitFirst_isSome (sep : Char) (l : List Char) (hl : sep ∈ l) :
    (splitFirst sep l).isSome := by
  induction l with
  | nil => simp at hl
  | cons c cs ih =>
      by_cases hc : c = sep
      · simp [splitFirst, hc]
      · have hcs : sep ∈ cs := by
          rcases List.mem_cons.mp hl with h | h
          · exact absurd h.symm hc
          · exact h
        simp only [splitFirst, if_neg hc]
        rcases hsome : splitFirst sep cs with _ | ⟨l₀, r₀⟩
        · rw [hsome] at ih; simp at ih; exact absurd hcs ih
        · simp

theorem splitFirst_eq_none (sep : Char) (l : List Char) (hl : sep ∉ l) :
    splitFirst sep l = none := by
  induction l with
  | nil => rfl
  | cons c cs ih =>
      have hc : c ≠ sep := fun h => hl (h ▸ List.mem_cons_self c cs)
      have hcs : sep ∉ cs := fun h => hl (List.mem_cons_of_mem c h)
      simp [splitFirst, hc, ih hcs]

/-! ## C3, C4, C5: parser and error paths -/

/-- C3: for every input string containing an underscore, the QR payload parser
splits at the first underscore only and yields `code = uppercase(left part)`
and `name = uppercase(right part with every '-' replaced by ' ')`; any string
containing an underscore parses successfully, with no further validation. -/
theorem claim_c3 :
    (∀ (l r : List Char), '_' ∉ l →
        parse_qr ⟨l ++ '_' :: r⟩ =
          some (upperString ⟨l⟩, upperString (replaceDashSpace ⟨r⟩)))
    ∧ (∀ s : String, '_' ∈ s.data → (parse_qr s).isSome) := by
  constructor
  · intro l r hl
    simp [parse_qr, splitFirst_append '_' l r hl]
  · intro s hs
    have h := splitFirst_isSome '_' s.data hs
    rcases hsp : splitFirst '_' s.data with _ | ⟨k, n⟩
    · rw [hsp] at h; simp at h
    · simp [parse_qr, hsp]

theorem claim_c3_witness :
    parse_qr ⟨['a', '1'] ++ '_' :: ['b', '-', 'c']⟩ =
      some (upperString ⟨['a', '1']⟩, upperString (replaceDashSpace ⟨['b', '-', 'c']⟩))
    ∧ (parse_qr "A1_BUDI-SANTOSO").isSome :=
  ⟨claim_c3.1 ['a', '1'] ['b', '-', 'c'] (by decide),
   claim_c3.2 "A1_BUDI-SANTOSO" (by decide)⟩

/-- C4: for every input string not containing an underscore (and a partition
load that did not report the error sentinel, which is checked first at line
110), `process_qrcode`'s scan body returns status `INVALID_FORMAT`, the table
is not mutated, no save is invoked, and the result carries no `kode` and no
`recent_attendance` field. -/
theorem claim_c4 (qr : String) (df : Table) (sh : ShRef) (t : String)
    (wenv : Option GExc) (hqr : '_' ∉ qr.data)
    (hload : (df.isEmpty && sh.isErr) = false) :
    process_scan qr df sh t wenv =
      ({ nama := "Format QR Tidak Valid", kode := none, status := .INVALID_FORMAT,
         waktu := t, recent := none }, df, none) := by
  have hp : parse_qr qr = none := by
    simp [parse_qr, splitFirst_eq_none '_' qr.data hqr]
  simp [process_scan, hload, hp]

theorem claim_c4_witness :
    process_scan "NOSEPARATORHERE" [] ShRef.sheet "10:00:00" none =
      ({ nama := "Format QR Tidak Valid", kode := none, status := .INVALID_FORMAT,
         waktu := "10:00:00", recent := none }, [], none) :=
  claim_c4 "NOSEPARATORHERE" [] ShRef.sheet "10:00:00" none (by decide) (by decide)

/-- C5: whenever the partition load returns the error sentinel (empty table
together with a string error marker — in particular when the client handle is
`none` because credentials were absent at startup), the scan returns status
`CONNECTION_ERROR` immediately for every payload: no parsing outcome, no
mutation, no save, and no `recent_attendance` field. -/
theorem claim_c5 (qr t msg : String) (df : Table) (wenv : Option GExc)
    (env : StoreEnv) (hdf : df.isEmpty = true) :
    process_scan qr df (.err msg) t wenv =
      ({ nama := "Gagal Koneksi GSheets", kode := none, status := .CONNECTION_ERROR,
         waktu := t, recent := none }, df, none)
    ∧ process_qrcode qr none env wenv t =
        .ok ({ nama := "Gagal Koneksi GSheets", kode := none,
               status := .CONNECTION_ERROR, waktu := t, recent := none }, [], none) := by
  constructor
  · simp [process_scan, hdf, ShRef.isErr]
  · simp [process_qrcode, get_attendance_dataframe, process_scan, ShRef.isErr]

theorem claim_c5_witness :
    process_scan "A1_BUDI-SANTOSO" [] (.err "Gagal koneksi GSheets") "10:00:00" none =
      ({ nama := "Gagal Koneksi GSheets", kode := none, status := .CONNECTION_ERROR,
         waktu := "10:00:00", recent := none }, [], none)
    ∧ process_qrcode "A1_BUDI-SANTOSO" none .wsMissing none "10:00:00" =
        .ok ({ nama := "Gagal Koneksi GSheets", kode := none,
               status := .CONNECTION_ERROR, waktu := "10:00:00", recent := none },
             [], none) :=
  claim_c5 "A1_BUDI-SANTOSO" "10:00:00" "Gagal koneksi GSheets" [] none .wsMissing rfl

/-! ## C1, C2: the reconciliation branches -/

/-- C1 as frozen quantifies over every partition table, but on a table that
already contains the submitted code the first call returns `REGISTERED`, not
`SUCCESS`: concrete refutation with a valid payload. -/
theorem claim_c1_counterexample :
    ('_' ∈ "A1_BUDI".data)
    ∧ (process_scan "A1_BUDI"
         [{ Kode := "A1", Nama := "BUDI SANTOSO", Waktu := "09:00:00" }]
         .sheet "10:00:00" none).1.status = .REGISTERED
    ∧ Status.REGISTERED ≠ Status.SUCCESS := by
  refine ⟨by decide, ?_, by decide⟩
  rfl

/-- C1 (amended: the code is not already present in the partition): submitting
the same code twice yields `SUCCESS` then `REGISTERED`, the `waktu` of the
second call equals the `waktu` returned by the first call (the stored time,
not the second call's current time `t2`), and after both calls the partition
contains exactly one row for that code. -/
theorem claim_c1_amended (qr t1 t2 kode nama : String) (df : Table) (sh : ShRef)
    (w1 w2 : Option GExc) (hload : (df.isEmpty && sh.isErr) = false)
    (hp : parse_qr qr = some (kode, nama))
    (habs : (df.find? fun r => r.Kode == kode) = none) :
    (process_scan qr df sh t1 w1).1.status = .SUCCESS
    ∧ (process_scan qr (process_scan qr df sh t1 w1).2.1 sh t2 w2).1.status = .REGISTERED
    ∧ (process_scan qr (process_scan qr df sh t1 w1).2.1 sh t2 w2).1.waktu
        = (process_scan qr df sh t1 w1).1.waktu
    ∧ ((process_scan qr (process_scan qr df sh t1 w1).2.1 sh t2 w2).2.1.filter
          fun r => r.Kode == kode).length = 1 := by
  have h1 : process_scan qr df sh t1 w1 =
      ({ nama := nama, kode := some kode, status := .SUCCESS, waktu := t1,
         recent := some (recentOf (df ++ [{ Kode := kode, Nama := nama, Waktu := t1 }])) },
       df ++ [{ Kode := kode, Nama := nama, Waktu := t1 }],
       some (save_attendance_dataframe (df ++ [{ Kode := kode, Nama := nama, Waktu := t1 }]) w1)) := by
    simp [process_scan, hload, hp, habs]
  have hfind2 : ((df ++ [({ Kode := kode, Nama := nama, Waktu := t1 } : Row)]).find?
      fun r => r.Kode == kode) = some { Kode := kode, Nama := nama, Waktu := t1 } := by
    rw [List.find?_append, habs]
    simp [List.find?]
  have hload2 : ((df ++ [({ Kode := kode, Nama := nama, Waktu := t1 } : Row)]).isEmpty
      && sh.isErr) = false := by cases df <;> simp
  have h2 : process_scan qr (df ++ [{ Kode := kode, Nama := nama, Waktu := t1 }]) sh t2 w2 =
      ({ nama := nama, kode := some kode, status := .REGISTERED, waktu := t1,
         recent := some (recentOf (df ++ [{ Kode := kode, Nama := nama, Waktu := t1 }])) },
       df ++ [{ Kode := kode, Nama := nama, Waktu := t1 }], none) := by
    simp [process_scan, hload2, hp, hfind2]
  have hnil : df.filter (fun r => r.Kode == kode) = [] :=
    List.filter_eq_nil_iff.mpr (List.find?_eq_none.mp habs)
  refine ⟨by rw [h1], ?_, ?_, ?_⟩
  · rw [h1]; rw [h2]
  · rw [h1]; rw [h2]
  · rw [h1]; rw [h2]
    simp [List.filter_append, hnil]

theorem claim_c1_witness :
    ('_' ∉ ("A1".data : List Char))
    ∧ parse_qr "A1_BUDI-SANTOSO" = some ("A1", "BUDI SANTOSO")
    ∧ (process_scan "A1_BUDI-SANTOSO" [] .sheet "07:30:00" none).1.status = .SUCCESS
    ∧ (process_scan "A1_BUDI-SANTOSO"
        (process_scan "A1_BUDI-SANTOSO" [] .sheet "07:30:00" none).2.1
        .sheet "08:00:00" none).1.status = .REGISTERED
    ∧ (process_scan "A1_BUDI-SANTOSO"
        (process_scan "A1_BUDI-SANTOSO" [] .sheet "07:30:00" none).2.1
        .sheet "08:00:00" none).1.waktu
        = (process_scan "A1_BUDI-SANTOSO" [] .sheet "07:30:00" none).1.waktu
    ∧ ((process_scan "A1_BUDI-SANTOSO"
        (process_scan "A1_BUDI-SANTOSO" [] .sheet "07:30:00" none).2.1
        .sheet "08:00:00" none).2.1.filter fun r => r.Kode == "A1").length = 1 := by
  have h := claim_c1_amended "A1_BUDI-SANTOSO" "07:30:00" "08:00:00" "A1" "BUDI SANTOSO"
    [] .sheet none none rfl rfl rfl
  exact ⟨by decide, rfl, h.1, h.2.1, h.2.2.1, h.2.2.2⟩

/-- C2: for every payload whose code is absent from the table's `Kode` column,
the scan appends exactly one new row `{Kode: uppercased code, Nama: parsed
name, Waktu: current time}`, invokes the save on the updated table, and
returns `SUCCESS` with `waktu` equal to the newly recorded time. -/
theorem claim_c2 (qr t kode nama : String) (df : Table) (sh : ShRef)
    (wenv : Option GExc) (hload : (df.isEmpty && sh.isErr) = false)
    (hp : parse_qr qr = some (kode, nama))
    (habs : (df.find? fun r => r.Kode == kode) = none) :
    process_scan qr df sh t wenv =
      ({ nama := nama, kode := some kode, status := .SUCCESS, waktu := t,
         recent := some (recentOf (df ++ [{ Kode := kode, Nama := nama, Waktu := t }])) },
       df ++ [{ Kode := kode, Nama := nama, Waktu := t }],
       some (save_attendance_dataframe (df ++ [{ Kode := kode, Nama := nama, Waktu := t }]) wenv)) := by
  simp [process_scan, hload, hp, habs]

/-- The §8 scenario: payload `"A1_BUDI-SANTOSO"` on an empty partition. -/
theorem claim_c2_witness :
    process_scan "A1_BUDI-SANTOSO" [] .sheet "07:30:00" none =
      ({ nama := "BUDI SANTOSO", kode := some "A1", status := .SUCCESS,
         waktu := "07:30:00", recent := some [("BUDI SANTOSO", "07:30:00")] },
       [{ Kode := "A1", Nama := "BUDI SANTOSO", Waktu := "07:30:00" }],
       some (.wrote [{ Kode := "A1", Nama := "BUDI SANTOSO", Waktu := "07:30:00" }])) := by
  have h := claim_c2 "A1_BUDI-SANTOSO" "07:30:00" "A1" "BUDI SANTOSO" [] .sheet none
    rfl rfl rfl
  exact h.trans (by decide)

/-! ## C10: REGISTERED reports the freshly parsed name, not the stored one -/

/-- C10: on a `REGISTERED` outcome the `nama` field of the result is the name
parsed from the current payload, the `waktu` is the stored time of the first
matching row, and the table is returned unchanged (so a stored row keeps its
`Nama` even when the new payload carries a different name part). -/
theorem claim_c10 (qr t kode nama : String) (df : Table) (sh : ShRef)
    (wenv : Option GExc) (r0 : Row) (hload : (df.isEmpty && sh.isErr) = false)
    (hp : parse_qr qr = some (kode, nama))
    (hfind : (df.find? fun r => r.Kode == kode) = some r0) :
    process_scan qr df sh t wenv =
      ({ nama := nama, kode := some kode, status := .REGISTERED, waktu := r0.Waktu,
         recent := some (recentOf df) }, df, none) := by
  simp [process_scan, hload, hp, hfind]

/-- Code `A1` is stored with name `BUDI SANTOSO`; a scan of `A1_SITI-AMINAH`
reports `SITI AMINAH` while the stored row keeps `BUDI SANTOSO`. -/
theorem claim_c10_witness :
    process_scan "A1_SITI-AMINAH"
        [{ Kode := "A1", Nama := "BUDI SANTOSO", Waktu := "07:30:00" }]
        .sheet "08:00:00" none =
      ({ nama := "SITI AMINAH", kode := some "A1", status := .REGISTERED,
         waktu := "07:30:00",
         recent := some [("BUDI SANTOSO", "07:30:00")] },
       [{ Kode := "A1", Nama := "BUDI SANTOSO", Waktu := "07:30:00" }], none) := by
  have h := claim_c10 "A1_SITI-AMINAH" "08:00:00" "A1" "SITI AMINAH"
    [{ Kode := "A1", Nama := "BUDI SANTOSO", Waktu := "07:30:00" }] .sheet none
    { Kode := "A1", Nama := "BUDI SANTOSO", Waktu := "07:30:00" } rfl rfl rfl
  exact h.trans (by decide)

/-! ## C8: write failures are swallowed, the caller still sees SUCCESS -/

/-- C8: if the durable write raises, `save_attendance_dataframe` returns
normally with the failure merely logged (`failedLogged`), the caller of the
scan still receives `SUCCESS` with the new row present in the in-memory
table, and the visible result is identical to the one of a successful
write — no distinct write-failure status exists. -/
theorem claim_c8 (qr t kode nama : String) (df : Table) (sh : ShRef) (e : GExc)
    (hload : (df.isEmpty && sh.isErr) = false)
    (hp : parse_qr qr = some (kode, nama))
    (habs : (df.find? fun r => r.Kode == kode) = none) :
    save_attendance_dataframe (df ++ [{ Kode := kode, Nama := nama, Waktu := t }])
        (some e) = .failedLogged e
    ∧ (process_scan qr df sh t (some e)).1.status = .SUCCESS
    ∧ (process_scan qr df sh t (some e)).2.1
        = df ++ [{ Kode := kode, Nama := nama, Waktu := t }]
    ∧ (process_scan qr df sh t (some e)).1 = (process_scan qr df sh t none).1 := by
  have h1 := claim_c2 qr t kode nama df sh (some e) hload hp habs
  have h2 := claim_c2 qr t kode nama df sh none hload hp habs
  refine ⟨rfl, by rw [h1], by rw [h1], by rw [h1, h2]⟩

theorem claim_c8_witness :
    save_attendance_dataframe
        [{ Kode := "A1", Nama := "BUDI SANTOSO", Waktu := "07:30:00" }]
        (some (.apiError "quota")) = .failedLogged (.apiError "quota")
    ∧ (process_scan "A1_BUDI-SANTOSO" [] .sheet "07:30:00"
        (some (.apiError "quota"))).1.status = .SUCCESS
    ∧ (process_scan "A1_BUDI-SANTOSO" [] .sheet "07:30:00"
        (some (.apiError "quota"))).2.1
        = [{ Kode := "A1", Nama := "BUDI SANTOSO", Waktu := "07:30:00" }]
    ∧ (process_scan "A1_BUDI-SANTOSO" [] .sheet "07:30:00"
        (some (.apiError "quota"))).1
        = (process_scan "A1_BUDI-SANTOSO" [] .sheet "07:30:00" none).1 :=
  claim_c8 "A1_BUDI-SANTOSO" "07:30:00" "A1" "BUDI SANTOSO" [] .sheet
    (.apiError "quota") rfl rfl rfl

/-! ## C7: a missing top-level store is NOT converted to the sentinel -/

/-- C7 fails on the code: the `except` at line 64 names
`gspread.WorksheetNotFound`, but a missing top-level spreadsheet makes
`gc.open` raise `gspread.SpreadsheetNotFound` (a sibling class), so the
exception is not caught, `get_attendance_dataframe` propagates it, and it
crosses `process_qrcode` into the HTTP layer instead of becoming the
empty-table sentinel — for every payload, write environment and clock. -/
theorem claim_c7_divergence (qr t : String) (wenv : Option GExc) :
    get_attendance_dataframe (some ()) (.openRaises .spreadsheetNotFound)
        = .error .spreadsheetNotFound
    ∧ process_qrcode qr (some ()) (.openRaises .spreadsheetNotFound) wenv t
        = .error .spreadsheetNotFound := ⟨rfl, rfl⟩

/-! ## C6: shape of `recent_attendance` -/

theorem recentOf_length_le (t : Table) : (recentOf t).length ≤ 10 := by
  simp only [recentOf, List.length_map, List.length_take]
  exact min_le_left _ _

theorem recentOf_sorted (t : Table) :
    List.Sorted (fun a b : String × String => b.2 ≤ a.2) (recentOf t) := by
  have h1 : List.Sorted waktuGe (List.insertionSort waktuGe t) :=
    List.sorted_insertionSort waktuGe t
  have h2 : List.Sorted waktuGe ((List.insertionSort waktuGe t).take 10) :=
    h1.sublist (List.take_sublist _ _)
  exact List.pairwise_map.mpr h2

theorem recentOf_mem (t : Table) :
    ∀ p ∈ recentOf t, ∃ r ∈ t, p = (r.Nama, r.Waktu) := by
  intro p hp
  rcases List.mem_map.mp hp with ⟨r, hr, rfl⟩
  have hr' : r ∈ List.insertionSort waktuGe t :=
    (List.take_sublist _ _).mem hr
  exact ⟨r, (List.mem_insertionSort waktuGe).mp hr', rfl⟩

/-- C6: on every `SUCCESS` or `REGISTERED` outcome the result's
`recent_attendance` is computed from the table as it stands after this scan's
mutation, has length at most 10, is sorted by the `Waktu` field in descending
(lexicographic string) order, and each entry is the `(Nama, Waktu)` projection
of a row of that table; on `CONNECTION_ERROR` and `INVALID_FORMAT` the field
is absent. -/
theorem claim_c6 (qr t : String) (df : Table) (sh : ShRef) (wenv : Option GExc) :
    (((process_scan qr df sh t wenv).1.status = .SUCCESS
        ∨ (process_scan qr df sh t wenv).1.status = .REGISTERED) →
      (process_scan qr df sh t wenv).1.recent
          = some (recentOf (process_scan qr df sh t wenv).2.1)
      ∧ (recentOf (process_scan qr df sh t wenv).2.1).length ≤ 10
      ∧ List.Sorted (fun a b : String × String => b.2 ≤ a.2)
          (recentOf (process_scan qr df sh t wenv).2.1)
      ∧ ∀ p ∈ recentOf (process_scan qr df sh t wenv).2.1,
          ∃ r ∈ (process_scan qr df sh t wenv).2.1, p = (r.Nama, r.Waktu))
    ∧ (((process_scan qr df sh t wenv).1.status = .CONNECTION_ERROR
        ∨ (process_scan qr df sh t wenv).1.status = .INVALID_FORMAT) →
      (process_scan qr df sh t wenv).1.recent = none) := by
  by_cases hload : (df.isEmpty && sh.isErr) = true
  · have h : process_scan qr df sh t wenv =
        ({ nama := "Gagal Koneksi GSheets", kode := none, status := .CONNECTION_ERROR,
           waktu := t, recent := none }, df, none) := by
      simp [process_scan, hload]
    rw [h]
    exact ⟨fun hc => by rcases hc with hc | hc <;> simp at hc, fun _ => rfl⟩
  · have hload' : (df.isEmpty && sh.isErr) = false := by
      revert hload; cases df.isEmpty && sh.isErr <;> simp
    rcases hp : parse_qr qr with _ | ⟨kode, nama⟩
    · have h : process_scan qr df sh t wenv =
          ({ nama := "Format QR Tidak Valid", kode := none, status := .INVALID_FORMAT,
             waktu := t, recent := none }, df, none) := by
        simp [process_scan, hload', hp]
      rw [h]
      exact ⟨fun hc => by rcases hc with hc | hc <;> simp at hc, fun _ => rfl⟩
    · rcases hf : df.find? (fun r => r.Kode == kode) with _ | ⟨r0⟩
      · have h := claim_c2 qr t kode nama df sh wenv hload' hp hf
        rw [h]
        refine ⟨fun _ => ⟨rfl, recentOf_length_le _, recentOf_sorted _, recentOf_mem _⟩,
          fun hc => by rcases hc with hc | hc <;> simp at hc⟩
      · have h := claim_c10 qr t kode nama df sh wenv r0 hload' hp hf
        rw [h]
        refine ⟨fun _ => ⟨rfl, recentOf_length_le _, recentOf_sorted _, recentOf_mem _⟩,
          fun hc => by rcases hc with hc | hc <;> simp at hc⟩

theorem claim_c6_witness :
    (process_scan "A1_BUDI-SANTOSO" [] .sheet "07:30:00" none).1.recent
        = some (recentOf (process_scan "A1_BUDI-SANTOSO" [] .sheet "07:30:00" none).2.1)
    ∧ (recentOf (process_scan "A1_BUDI-SANTOSO" [] .sheet "07:30:00" none).2.1).length ≤ 10
    ∧ List.Sorted (fun a b : String × String => b.2 ≤ a.2)
        (recentOf (process_scan "A1_BUDI-SANTOSO" [] .sheet "07:30:00" none).2.1)
    ∧ ∀ p ∈ recentOf (process_scan "A1_BUDI-SANTOSO" [] .sheet "07:30:00" none).2.1,
        ∃ r ∈ (process_scan "A1_BUDI-SANTOSO" [] .sheet "07:30:00" none).2.1,
          p = (r.Nama, r.Waktu) :=
  (claim_c6 "A1_BUDI-SANTOSO" "07:30:00" [] .sheet none).1 (Or.inl rfl)

/-! ## C9: the partition namer -/

theorem replaceCommaSpace_cons_ne (x : Char) (l : List Char) (hx : x ≠ ',') :
    replaceCommaSpace (x :: l) = x :: replaceCommaSpace l := by
  cases l with
  | nil => rfl
  | cons y ys => simp [replaceCommaSpace, hx]

theorem replaceCommaSpace_append (xs ys : List Char) (hxs : ',' ∉ xs) :
    replaceCommaSpace (xs ++ ys) = xs ++ replaceCommaSpace ys := by
  induction xs with
  | nil => rfl
  | cons x xs ih =>
      have hx : x ≠ ',' := fun h => hxs (h ▸ List.mem_cons_self x xs)
      have hxs' : ',' ∉ xs := fun h => hxs (List.mem_cons_of_mem x h)
      rw [List.cons_append, replaceCommaSpace_cons_ne x (xs ++ ys) hx, ih hxs']
      rfl

theorem replaceCommaSpace_self (xs : List Char) (hxs : ',' ∉ xs) :
    replaceCommaSpace xs = xs := by
  have h := replaceCommaSpace_append xs [] hxs
  simpa [replaceCommaSpace] using h

theorem toUpper_digitChar (n : Nat) : (digitChar n).toUpper = digitChar n := by
  rcases n with _ | _ | _ | _ | _ | _ | _ | _ | _ | n <;> rfl

theorem digitChar_ne_comma (n : Nat) (h : n < 10) : digitChar n ≠ ',' := by
  interval_cases n <;> decide

theorem digitVal_digitChar (n : Nat) (h : n < 10) : digitVal (digitChar n) = n := by
  interval_cases n <;> rfl

theorem weekdayName_upper_no_comma (k : Fin 7) :
    ',' ∉ (weekdayName k).map Char.toUpper := by
  revert k; decide

theorem weekdayName_upper_no_underscore (k : Fin 7) :
    '_' ∉ (weekdayName k).map Char.toUpper := by
  revert k; decide

theorem toUpper_dash : Char.toUpper '-' = '-' := rfl

theorem toUpper_map_dateChars (d : Date) :
    (dateChars d).map Char.toUpper = dateChars d := by
  simp [dateChars, pad2, pad4, toUpper_digitChar, toUpper_dash]

theorem comma_not_mem_dateChars (d : Date) : ',' ∉ dateChars d := by
  intro hmem
  simp only [dateChars, pad2, pad4, List.cons_append, List.nil_append, List.mem_cons,
    List.not_mem_nil, or_false] at hmem
  rcases hmem with h | h | h | h | h | h | h | h | h | h <;>
    first
      | exact digitChar_ne_comma _ (Nat.mod_lt _ (by decide)) h.symm
      | exact absurd h (by decide)

theorem get_weekly_worksheet_name_eq (i : Instant) :
    get_weekly_worksheet_name i =
      ⟨((weekdayName (weekdayIndex i.date)).map Char.toUpper)
        ++ '_' :: dateChars i.date⟩ := by
  unfold get_weekly_worksheet_name strftime_A_dmY
  rw [List.map_append, List.map_cons, List.map_cons]
  rw [show Char.toUpper ',' = ',' from rfl, show Char.toUpper ' ' = ' ' from rfl]
  rw [replaceCommaSpace_append _ _ (weekdayName_upper_no_comma _)]
  rw [show replaceCommaSpace (',' :: ' ' :: (dateChars i.date).map Char.toUpper)
        = '_' :: replaceCommaSpace ((dateChars i.date).map Char.toUpper) from by
      simp [replaceCommaSpace]]
  rw [toUpper_map_dateChars, replaceCommaSpace_self _ (comma_not_mem_dateChars _)]

theorem dateChars_inj (a b : Date)
    (had : a.day < 100) (ham : a.month < 100) (hay : a.year < 10000)
    (hbd : b.day < 100) (hbm : b.month < 100) (hby : b.year < 10000)
    (h : dateChars a = dateChars b) : a = b := by
  obtain ⟨d1, m1, y1⟩ := a
  obtain ⟨d2, m2, y2⟩ := b
  have had' : d1 < 100 := had
  have ham' : m1 < 100 := ham
  have hay' : y1 < 10000 := hay
  have hbd' : d2 < 100 := hbd
  have hbm' : m2 < 100 := hbm
  have hby' : y2 < 10000 := hby
  simp only [dateChars, pad2, pad4, List.cons_append, List.nil_append,
    List.cons.injEq, and_true] at h
  obtain ⟨e1, e2, e3, e4, e5, e6, e7, e8⟩ :
      digitChar (d1 / 10 % 10) = digitChar (d2 / 10 % 10)
      ∧ digitChar (d1 % 10) = digitChar (d2 % 10)
      ∧ digitChar (m1 / 10 % 10) = digitChar (m2 / 10 % 10)
      ∧ digitChar (m1 % 10) = digitChar (m2 % 10)
      ∧ digitChar (y1 / 1000 % 10) = digitChar (y2 / 1000 % 10)
      ∧ digitChar (y1 / 100 % 10) = digitChar (y2 / 100 % 10)
      ∧ digitChar (y1 / 10 % 10) = digitChar (y2 / 10 % 10)
      ∧ digitChar (y1 % 10) = digitChar (y2 % 10) := by tauto
  have f1 : d1 / 10 % 10 = d2 / 10 % 10 := by
    have hc := congrArg digitVal e1
    rwa [digitVal_digitChar _ (Nat.mod_lt _ (by decide)),
      digitVal_digitChar _ (Nat.mod_lt _ (by decide))] at hc
  have f2 : d1 % 10 = d2 % 10 := by
    have hc := congrArg digitVal e2
    rwa [digitVal_digitChar _ (Nat.mod_lt _ (by decide)),
      digitVal_digitChar _ (Nat.mod_lt _ (by decide))] at hc
  have f3 : m1 / 10 % 10 = m2 / 10 % 10 := by
    have hc := congrArg digitVal e3
    rwa [digitVal_digitChar _ (Nat.mod_lt _ (by decide)),
      digitVal_digitChar _ (Nat.mod_lt _ (by decide))] at hc
  have f4 : m1 % 10 = m2 % 10 := by
    have hc := congrArg digitVal e4
    rwa [digitVal_digitChar _ (Nat.mod_lt _ (by decide)),
      digitVal_digitChar _ (Nat.mod_lt _ (by decide))] at hc
  have f5 : y1 / 1000 % 10 = y2 / 1000 % 10 := by
    have hc := congrArg digitVal e5
    rwa [digitVal_digitChar _ (Nat.mod_lt _ (by decide)),
      digitVal_digitChar _ (Nat.mod_lt _ (by decide))] at hc
  have f6 : y1 / 100 % 10 = y2 / 100 % 10 := by
    have hc := congrArg digitVal e6
    rwa [digitVal_digitChar _ (Nat.mod_lt _ (by decide)),
      digitVal_digitChar _ (Nat.mod_lt _ (by decide))] at hc
  have f7 : y1 / 10 % 10 = y2 / 10 % 10 := by
    have hc := congrArg digitVal e7
    rwa [digitVal_digitChar _ (Nat.mod_lt _ (by decide)),
      digitVal_digitChar _ (Nat.mod_lt _ (by decide))] at hc
  have f8 : y1 % 10 = y2 % 10 := by
    have hc := congrArg digitVal e8
    rwa [digitVal_digitChar _ (Nat.mod_lt _ (by decide)),
      digitVal_digitChar _ (Nat.mod_lt _ (by decide))] at hc
  have hd : d1 = d2 := by omega
  have hm : m1 = m2 := by omega
  have hy : y1 = y2 := by omega
  rw [hd, hm, hy]

theorem worksheet_name_inj (i1 i2 : Instant)
    (h1d : i1.date.day < 100) (h1m : i1.date.month < 100) (h1y : i1.date.year < 10000)
    (h2d : i2.date.day < 100) (h2m : i2.date.month < 100) (h2y : i2.date.year < 10000)
    (h : get_weekly_worksheet_name i1 = get_weekly_worksheet_name i2) :
    i1.date = i2.date := by
  rw [get_weekly_worksheet_name_eq, get_weekly_worksheet_name_eq] at h
  have hdata : ((weekdayName (weekdayIndex i1.date)).map Char.toUpper)
      ++ '_' :: dateChars i1.date =
      ((weekdayName (weekdayIndex i2.date)).map Char.toUpper)
      ++ '_' :: dateChars i2.date := congrArg String.data h
  have hs1 := splitFirst_append '_' ((weekdayName (weekdayIndex i1.date)).map Char.toUpper)
    (dateChars i1.date) (weekdayName_upper_no_underscore (weekdayIndex i1.date))
  have hs2 := splitFirst_append '_' ((weekdayName (weekdayIndex i2.date)).map Char.toUpper)
    (dateChars i2.date) (weekdayName_upper_no_underscore (weekdayIndex i2.date))
  rw [hdata, hs2] at hs1
  have hdc : dateChars i1.date = dateChars i2.date := by
    injection hs1 with h'
    injection h' with hfst hsnd
    exact hsnd.symm
  exact dateChars_inj i1.date i2.date h1d h1m h1y h2d h2m h2y hdc

theorem worksheet_name_stable (i1 i2 : Instant) (h : i1.date = i2.date) :
    get_weekly_worksheet_name i1 = get_weekly_worksheet_name i2 := by
  unfold get_weekly_worksheet_name strftime_A_dmY
  rw [h]

/-- C9: the partition name is a pure function of the calendar date: it equals
the uppercased full localized weekday name joined by `'_'` to the zero-padded
`DD-MM-YYYY` date (the `", "` separator replaced by `"_"`); any two instants
of the same calendar day get the same name, and instants of different
calendar days (within `datetime`'s ranges) get different names. -/
theorem claim_c9 (i1 i2 : Instant)
    (h1d : i1.date.day < 100) (h1m : i1.date.month < 100) (h1y : i1.date.year < 10000)
    (h2d : i2.date.day < 100) (h2m : i2.date.month < 100) (h2y : i2.date.year < 10000) :
    get_weekly_worksheet_name i1 =
      ⟨((weekdayName (weekdayIndex i1.date)).map Char.toUpper)
        ++ '_' :: dateChars i1.date⟩
    ∧ (i1.date = i2.date → get_weekly_worksheet_name i1 = get_weekly_worksheet_name i2)
    ∧ (i1.date ≠ i2.date → get_weekly_worksheet_name i1 ≠ get_weekly_worksheet_name i2) :=
  ⟨get_weekly_worksheet_name_eq i1, worksheet_name_stable i1 i2,
   fun hne h => hne (worksheet_name_inj i1 i2 h1d h1m h1y h2d h2m h2y h)⟩

theorem claim_c9_witness :
    get_weekly_worksheet_name ⟨⟨7, 10, 2025⟩, 100⟩
      = get_weekly_worksheet_name ⟨⟨7, 10, 2025⟩, 50000⟩
    ∧ get_weekly_worksheet_name ⟨⟨7, 10, 2025⟩, 100⟩
      ≠ get_weekly_worksheet_name ⟨⟨8, 10, 2025⟩, 100⟩ :=
  ⟨(claim_c9 ⟨⟨7, 10, 2025⟩, 100⟩ ⟨⟨7, 10, 2025⟩, 50000⟩ (by decide) (by decide)
      (by decide) (by decide) (by decide) (by decide)).2.1 rfl,
   (claim_c9 ⟨⟨7, 10, 2025⟩, 100⟩ ⟨⟨8, 10, 2025⟩, 100⟩ (by decide) (by decide)
      (by decide) (by decide) (by decide) (by decide)).2.2 (by decide)⟩
